import Mathlib

/-!
Verification development for `cuboid-opencl` (src/main.c): an OpenCL benchmark
that computes the surface area `2*((a*b) + (b*c) + (a*c))` of `LENGTH` cuboids
on an accelerator and compares against a sequential host loop.

The embedding models:
 * 32-bit signed (`int`) wrap-around arithmetic (`wrap32`, `add32`, `mul32`);
 * the OpenCL kernel `cuboid_area` (the `OpenCL_code` string, main.c:39-49)
   and the sequential reference loop (main.c:227-229);
 * the input generator `(rand() % 9) + 1` (main.c:80-84);
 * device selection over an abstract platform environment (main.c:91-115);
 * the buffer allocations (main.c:173-183);
 * the host-side API-call trace of `main`, including the two `wtime()` reads
   that delimit the accelerator timing window (main.c:202-214);
 * the release sequence at shutdown (main.c:250-256);
 * the stdout line structure of a successful run (main.c:125-141, 215, 231,
   235, 238-247, 264).
-/

namespace Cuboid

/-- `const int LENGTH = 1024 * 1024 * 75;` (main.c:37). -/
def LENGTH : Nat := 1024 * 1024 * 75

/-- Wrap an integer into the 32-bit signed range `[-2^31, 2^31)`, modelling
C `int` two's-complement arithmetic (2147483648 = 2^31, 4294967296 = 2^32). -/
def wrap32 (x : Int) : Int := (x + 2147483648) % 4294967296 - 2147483648

/-- 32-bit signed addition with wrap-around. -/
def add32 (x y : Int) : Int := wrap32 (x + y)

/-- 32-bit signed multiplication with wrap-around. -/
def mul32 (x y : Int) : Int := wrap32 (x * y)

/-- Work item `i` of the `cuboid_area` kernel (the `OpenCL_code` string,
main.c:47): `result[i] = 2 * ((a[i] * b[i]) + (b[i] * c[i]) + (a[i] * c[i]))`,
in C `int` arithmetic. Host arrays are modelled as functions `Nat → Int`. -/
def kernel_cuboid_area (a b c : Nat → Int) (i : Nat) : Int :=
  mul32 2 (add32 (add32 (mul32 (a i) (b i)) (mul32 (b i) (c i))) (mul32 (a i) (c i)))

/-- The array read back from the device after the kernel has been launched
with `global_size = n`: one work item per index `i < n`, each writing
`result[i]` (main.c:206-218). -/
def opencl_run (a b c : Nat → Int) (n : Nat) : List Int :=
  (List.range n).map (kernel_cuboid_area a b c)

/-- Body of the sequential reference loop (main.c:228):
`result_sequential[i] = 2 * ((source_a[i] * source_b[i]) + (source_b[i] *
source_c[i]) + (source_a[i] * source_c[i]))`, in C `int` arithmetic. -/
def seq_cuboid_area (a b c : Nat → Int) (i : Nat) : Int :=
  mul32 2 (add32 (add32 (mul32 (a i) (b i)) (mul32 (b i) (c i))) (mul32 (a i) (c i)))

/-- The sequential host loop `for (i = 0; i < n; i++)` (main.c:227-229). -/
def sequential_run (a b c : Nat → Int) (n : Nat) : List Int :=
  (List.range n).map (seq_cuboid_area a b c)

/-- The surface-area formula in exact (unbounded) integer arithmetic, for
comparison with the wrapped 32-bit evaluation. -/
def cuboidAreaExact (a b c : Int) : Int := 2 * ((a * b) + (b * c) + (a * c))

/-- One generated input element, `(rand() % 9) + 1` (main.c:81-83), as a
function of the nonnegative value returned by `rand()`. -/
def genValue (r : Nat) : Int := ((r % 9 + 1 : Nat) : Int)

/-- Test inputs of the N=4 scenario: `a = [1,2,3,4]`. -/
def a_test : Nat → Int := fun i => [1, 2, 3, 4].getD i 0

/-- Test inputs of the N=4 scenario: `b = [1,1,1,1]`. -/
def b_test : Nat → Int := fun i => [1, 1, 1, 1].getD i 0

/-- Test inputs of the N=4 scenario: `c = [2,2,2,2]`. -/
def c_test : Nat → Int := fun i => [2, 2, 2, 2].getD i 0

/-- Failure modes of device selection: zero platforms enumerated
(main.c:93-97), or no platform yields a GPU device (main.c:105-115). -/
inductive SelectError
  | noPlatform
  | noMatchingDevice
deriving DecidableEq

/-- The loop `for (i = 0; i < numPlatforms; i++)` of main.c:105-112: ask each
platform for one `CL_DEVICE_TYPE_GPU` device and `break` on the first
`CL_SUCCESS`. A platform environment is a list, in enumeration order, of each
platform's answer to that request (`some d` on success, `none` otherwise). -/
def findGPU : List (Option Nat) → Option Nat
  | [] => none
  | p :: rest =>
    match p with
    | some d => some d
    | none => findGPU rest

/-- Device selection (main.c:91-115): if `numPlatforms == 0`, print and
`return EXIT_FAILURE`; otherwise scan the platforms with `findGPU`; if
`device_id` is still `NULL` afterwards, `checkError` aborts the run.
`checkError` lives in `err_code.h`, which is not part of src/; its abort-on-
non-success behaviour here follows the spec's propagation policy ("any
non-success status is fatal to the run"). -/
def select_device (ps : List (Option Nat)) : Except SelectError Nat :=
  if ps.length = 0 then Except.error SelectError.noPlatform
  else
    match findGPU ps with
    | some d => Except.ok d
    | none => Except.error SelectError.noMatchingDevice

/-- Whether device selection returned a usable device handle. -/
def selOk : Except SelectError Nat → Bool
  | Except.ok _ => true
  | Except.error _ => false

/-- Process exit status of the device-selection phase: `EXIT_FAILURE` (1) on
either error path, 0 when a device handle is obtained and the run continues. -/
def selExit : Except SelectError Nat → Nat
  | Except.ok _ => 0
  | Except.error _ => 1

/-- Device selection as the spec words it (section 4.1): fail with
`NoPlatform` on an empty enumeration; otherwise return the device of the
first platform whose request succeeds (the head of the successful answers in
enumeration order — first-match, not best-match); fail with
`NoMatchingDevice` when no platform yields one. -/
def select_device_spec (ps : List (Option Nat)) : Except SelectError Nat :=
  if ps.isEmpty then Except.error SelectError.noPlatform
  else
    match (ps.filterMap id).head? with
    | some d => Except.ok d
    | none => Except.error SelectError.noMatchingDevice

/-- The source loop returns the first successful answer in enumeration
order. -/
lemma findGPU_eq_head (ps : List (Option Nat)) :
    findGPU ps = (ps.filterMap id).head? := by
  induction ps with
  | nil => rfl
  | cons p rest ih =>
    cases p with
    | none => simpa [findGPU] using ih
    | some d => simp [findGPU]

/-- Device-side resources created during the run (main.c:144-183). -/
inductive Res
  | bufA
  | bufB
  | bufC
  | bufResult
  | prog
  | kern
  | queue
  | ctx
deriving DecidableEq, BEq

/-- The device-side resources in creation order: context (main.c:144), queue
(main.c:148), program (main.c:152), kernel (main.c:169), four buffers
(main.c:173-183). -/
def created_device_resources : List Res :=
  [Res.ctx, Res.queue, Res.prog, Res.kern, Res.bufA, Res.bufB, Res.bufC, Res.bufResult]

/-- The shutdown release sequence, in source order (main.c:250-256):
`clReleaseMemObject(d_a)`, `clReleaseMemObject(d_b)`, `clReleaseMemObject(d_c)`,
`clReleaseProgram(program)`, `clReleaseKernel(kernel_cuboid_area)`,
`clReleaseCommandQueue(commands)`, `clReleaseContext(context)`. -/
def release_order : List Res :=
  [Res.bufA, Res.bufB, Res.bufC, Res.prog, Res.kern, Res.queue, Res.ctx]

/-- Position of `r` in `l` (length of `l` if absent). -/
def idxIn (r : Res) (l : List Res) : Nat := (l.takeWhile (fun x => x != r)).length

/-- `x` and `y` are both released and `x` is released before `y`. -/
def releasedBefore (x y : Res) : Bool :=
  release_order.contains x && release_order.contains y &&
    decide (idxIn x release_order < idxIn y release_order)

/-- Host-side calls of `main`, in the order the source issues them. -/
inductive Ev
  | srandCall
  | genInputs
  | getPlatformCount
  | getPlatformIDs
  | getDeviceIDs
  | getDeviceInfo
  | createContext
  | createQueue
  | createProgramWithSource
  | buildProgram
  | createKernel
  | createBuffer
  | enqueueWriteBuffer
  | setKernelArg
  | clTimerStart
  | enqueueNDRangeKernel
  | clFinish
  | clTimerStop
  | enqueueReadBuffer
  | seqTimerStart
  | seqCompute
  | seqTimerStop
  | releaseCall
deriving DecidableEq, BEq

/-- The call trace of a successful run of `main`, transliterated from
main.c:80-256: input generation (80-84), platform enumeration (91, 101),
device selection (105-112), the two device-info queries (119, 135), context
(144), queue (148), program creation (152) and build (156), kernel creation
(169), the four buffer allocations (173-183), the three blocking uploads
(186-193), the four argument bindings (196-199), the `wtime()` read (202),
kernel enqueue (207), `clFinish` (211), the second `wtime()` read (214), the
blocking readback (218), the timed sequential loop (226-230), and the seven
release calls (250-256). `rand` is never seeded: no `srandCall` occurs. -/
def main_trace : List Ev :=
  [Ev.genInputs, Ev.getPlatformCount, Ev.getPlatformIDs, Ev.getDeviceIDs,
   Ev.getDeviceInfo, Ev.getDeviceInfo, Ev.createContext, Ev.createQueue,
   Ev.createProgramWithSource, Ev.buildProgram, Ev.createKernel,
   Ev.createBuffer, Ev.createBuffer, Ev.createBuffer, Ev.createBuffer,
   Ev.enqueueWriteBuffer, Ev.enqueueWriteBuffer, Ev.enqueueWriteBuffer,
   Ev.setKernelArg, Ev.setKernelArg, Ev.setKernelArg, Ev.setKernelArg,
   Ev.clTimerStart, Ev.enqueueNDRangeKernel, Ev.clFinish, Ev.clTimerStop,
   Ev.enqueueReadBuffer, Ev.seqTimerStart, Ev.seqCompute, Ev.seqTimerStop,
   Ev.releaseCall, Ev.releaseCall, Ev.releaseCall, Ev.releaseCall,
   Ev.releaseCall, Ev.releaseCall, Ev.releaseCall]

/-- The events strictly between the first occurrence of `a` and the next
occurrence of `b` in trace `t`. -/
def between (a b : Ev) (t : List Ev) : List Ev :=
  ((t.dropWhile (fun e => e != a)).drop 1).takeWhile (fun e => e != b)

/-- Access mode requested for a device buffer. -/
inductive AccessMode
  | readOnly
  | writeOnly
deriving DecidableEq, BEq

/-- Byte size of the host array element type `int` (4 on every ABI the
program targets: ILP32, LP64, LLP64). -/
def sizeof_int : Nat := 4

/-- Byte size of `float` (4, per IEEE-754 single precision); the allocation
calls in the source are written `sizeof(float) * LENGTH`. -/
def sizeof_float : Nat := 4

/-- The four `clCreateBuffer` calls in source order (main.c:173-183): three
`CL_MEM_READ_ONLY` input buffers `d_a`, `d_b`, `d_c` and one
`CL_MEM_WRITE_ONLY` output buffer `d_result`, each of
`sizeof(float) * LENGTH` bytes. -/
def buffer_allocs : List (AccessMode × Nat) :=
  [(AccessMode.readOnly, sizeof_float * LENGTH),
   (AccessMode.readOnly, sizeof_float * LENGTH),
   (AccessMode.readOnly, sizeof_float * LENGTH),
   (AccessMode.writeOnly, sizeof_float * LENGTH)]

/-- Classification of the selected device printed at main.c:125-130. -/
inductive DevClass
  | gpu
  | cpu
  | other
deriving DecidableEq, BEq

/-- `CL_DEVICE_TYPE_CPU` (`1 << 1`, from the OpenCL headers). -/
def CL_DEVICE_TYPE_CPU : Int := 2

/-- `CL_DEVICE_TYPE_GPU` (`1 << 2`, from the OpenCL headers). -/
def CL_DEVICE_TYPE_GPU : Int := 4

/-- The `if`/`else if`/`else` classification of the queried device type
(main.c:125-130). -/
def deviceClass (device_type : Int) : DevClass :=
  if device_type = CL_DEVICE_TYPE_GPU then DevClass.gpu
  else if device_type = CL_DEVICE_TYPE_CPU then DevClass.cpu
  else DevClass.other

/-- One line of stdout of a successful run. The elapsed-time and ratio lines
carry no payload here: their numeric values are wall-clock readings outside
the embedding. -/
inductive OutLine
  | deviceType (d : DevClass)
  | computeUnits (n : Int)
  | clTime
  | seqTime
  | ratio
  | tuple (a b c oc sq : Int)
  | remaining (n : Int)
  | blank
deriving DecidableEq, BEq

/-- The result-sample loop `for (i = 0; i < 100; i++)` (main.c:238-246): one
tuple line `a=.. b=.. c=.. opencl=.. seq=..` per index. -/
def tupleLines (a b c oc sq : Nat → Int) : List OutLine :=
  (List.range 100).map (fun i => OutLine.tuple (a i) (b i) (c i) (oc i) (sq i))

/-- Stdout of a successful run, in source print order: device-type line
(main.c:126/128/130), compute-unit line (141), OpenCL elapsed-time line
(215), sequential elapsed-time line (231), ratio line (235), the 100 sample
tuple lines (238-246), the `... %d more items` line with `LENGTH - 100`
(247), and the final bare newline (264). -/
def stdout_run (device_type : Int) (units : Int) (a b c oc sq : Nat → Int) : List OutLine :=
  [OutLine.deviceType (deviceClass device_type), OutLine.computeUnits units,
   OutLine.clTime, OutLine.seqTime, OutLine.ratio]
    ++ tupleLines a b c oc sq
    ++ [OutLine.remaining ((LENGTH : Int) - 100), OutLine.blank]

/-- The seed `rand` behaves as if given when `srand` is never called
(C standard: `srand(1)`). -/
def DEFAULT_SEED : Nat := 1

/-- The seed the run's `rand` stream actually uses: the chosen seed `s` if
the trace contains an `srand` call, the default seed otherwise. -/
def runSeed (t : List Ev) (s : Nat) : Nat :=
  if t.contains Ev.srandCall then s else DEFAULT_SEED

/-- Array `source_a` as generated by the loop at main.c:80-84: iteration `i`
consumes three consecutive `rand()` values, of which `source_a[i]` uses the
first. `stream k` is the `k`-th value of the `rand` stream. -/
def gen_a (stream : Nat → Nat) (n : Nat) : List Int :=
  (List.range n).map (fun i => genValue (stream (3 * i)))

/-- Array `source_b` (second `rand()` value of each iteration). -/
def gen_b (stream : Nat → Nat) (n : Nat) : List Int :=
  (List.range n).map (fun i => genValue (stream (3 * i + 1)))

/-- Array `source_c` (third `rand()` value of each iteration). -/
def gen_c (stream : Nat → Nat) (n : Nat) : List Int :=
  (List.range n).map (fun i => genValue (stream (3 * i + 2)))

/-- The three input arrays of a run drawing from `stream`. -/
def run_inputs (stream : Nat → Nat) (n : Nat) : List Int × List Int × List Int :=
  (gen_a stream n, gen_b stream n, gen_c stream n)

/-- C1: for every index `i` in `0..n-1`, the element read back from the
accelerator path equals the element computed by the sequential host path on
the same three input arrays. -/
theorem accel_matches_sequential (a b c : Nat → Int) (n i : Nat) (h : i < n) :
    (opencl_run a b c n).getD i 0 = (sequential_run a b c n).getD i 0 := rfl

/-- Witness for C1 at `n = 4`, `i = 2`, on concrete constant arrays. -/
theorem accel_matches_sequential_witness :
    2 < 4 ∧
      (opencl_run (fun _ => 3) (fun _ => 4) (fun _ => 5) 4).getD 2 0 =
        (sequential_run (fun _ => 3) (fun _ => 4) (fun _ => 5) 4).getD 2 0 :=
  ⟨by decide, accel_matches_sequential (fun _ => 3) (fun _ => 4) (fun _ => 5) 4 2 (by decide)⟩

/-- C2: for `N = 4`, `a = [1,2,3,4]`, `b = [1,1,1,1]`, `c = [2,2,2,2]`, both
the accelerator path and the sequential path produce exactly `[10,16,22,28]`. -/
theorem scenario_n4_results :
    opencl_run a_test b_test c_test 4 = [10, 16, 22, 28] ∧
      sequential_run a_test b_test c_test 4 = [10, 16, 22, 28] := by
  constructor <;> decide

/-- C3: when platform enumeration reports zero platforms, device selection
fails the run with the discovery error and a non-zero exit status, and never
returns a device handle. -/
theorem zero_platforms_fail (ps : List (Option Nat)) (h : ps.length = 0) :
    select_device ps = Except.error SelectError.noPlatform ∧
      selOk (select_device ps) = false ∧ selExit (select_device ps) = 1 := by
  rw [List.length_eq_zero] at h
  subst h
  exact ⟨rfl, rfl, rfl⟩

/-- Witness for C3 on the empty platform environment. -/
theorem zero_platforms_fail_witness :
    ([] : List (Option Nat)).length = 0 ∧
      (select_device [] = Except.error SelectError.noPlatform ∧
        selOk (select_device []) = false ∧ selExit (select_device []) = 1) :=
  ⟨rfl, zero_platforms_fail [] rfl⟩

/-- C4: device selection refines the spec's first-match policy — it scans the
platforms in enumeration order, returns the device of the first platform
whose one-GPU request succeeds, and fails with `noMatchingDevice` when no
platform yields one (after the `noPlatform` check on an empty enumeration). -/
theorem select_device_first_match (ps : List (Option Nat)) :
    select_device ps = select_device_spec ps := by
  cases ps with
  | nil => rfl
  | cons p rest =>
    unfold select_device select_device_spec
    rw [findGPU_eq_head]
    simp

/-- C5 counterexample: the shutdown sequence does not satisfy the claimed
release discipline — `d_result` is never released (main.c releases only
`d_a`, `d_b`, `d_c` at 250-252), and the kernel is released (254) after the
program (253), not before. -/
theorem release_claim_counterexample :
    ¬ (created_device_resources.all (fun r => release_order.contains r) = true ∧
       releasedBefore Res.bufA Res.prog = true ∧
       releasedBefore Res.bufB Res.prog = true ∧
       releasedBefore Res.bufC Res.prog = true ∧
       releasedBefore Res.bufResult Res.prog = true ∧
       releasedBefore Res.kern Res.prog = true ∧
       releasedBefore Res.prog Res.queue = true ∧
       releasedBefore Res.queue Res.ctx = true) := by decide

/-- C5 (amended): at shutdown every created device-side resource except the
output buffer `d_result` is released; the three input buffers are released
before the program, the program before the kernel, the kernel before the
queue, the program before the queue, and the queue before the context;
`d_result` is never released. -/
theorem release_order_actual :
    releasedBefore Res.bufA Res.prog = true ∧
      releasedBefore Res.bufB Res.prog = true ∧
      releasedBefore Res.bufC Res.prog = true ∧
      releasedBefore Res.prog Res.kern = true ∧
      releasedBefore Res.kern Res.queue = true ∧
      releasedBefore Res.prog Res.queue = true ∧
      releasedBefore Res.queue Res.ctx = true ∧
      release_order.contains Res.bufResult = false ∧
      (created_device_resources.filter (fun r => r != Res.bufResult)).all
        (fun r => release_order.contains r) = true := by decide

/-- C6: exactly four device buffers are allocated — three read-only then one
write-only — and each one's byte size equals `element_count * element_size`
with `element_size` the size of the host element type `int` (the source
writes `sizeof(float) * LENGTH`, and `sizeof(float) = sizeof(int) = 4`). -/
theorem four_buffers_sized :
    buffer_allocs.length = 4 ∧
      (buffer_allocs.filter (fun p => p.1 == AccessMode.readOnly)).length = 3 ∧
      (buffer_allocs.filter (fun p => p.1 == AccessMode.writeOnly)).length = 1 ∧
      buffer_allocs.all (fun p => p.2 == LENGTH * sizeof_int) = true := by decide

/-- C7: the accelerator timing window — between the `wtime()` read at
main.c:202 and the one at main.c:214 — contains exactly the kernel enqueue
followed by the blocking `clFinish`; in particular no program build and no
host-device transfer (upload or readback) happens inside it. -/
theorem timed_interval_pure_dispatch :
    between Ev.clTimerStart Ev.clTimerStop main_trace =
        [Ev.enqueueNDRangeKernel, Ev.clFinish] ∧
      (between Ev.clTimerStart Ev.clTimerStop main_trace).contains Ev.buildProgram = false ∧
      (between Ev.clTimerStart Ev.clTimerStop main_trace).contains Ev.enqueueWriteBuffer = false ∧
      (between Ev.clTimerStart Ev.clTimerStop main_trace).contains Ev.enqueueReadBuffer = false := by
  decide

/-- C8: stdout of a successful run is, in order, the device-type line, the
compute-unit line, the accelerator elapsed-time line, the sequential
elapsed-time line, the speedup-ratio line, then the sample tuple lines —
exactly 100 of them, hence at most 100 — then one line whose count is
`LENGTH` minus the number of tuple lines printed (and a final blank line). -/
theorem stdout_line_structure (device_type units : Int) (a b c oc sq : Nat → Int) :
    stdout_run device_type units a b c oc sq =
        [OutLine.deviceType (deviceClass device_type), OutLine.computeUnits units,
         OutLine.clTime, OutLine.seqTime, OutLine.ratio]
          ++ tupleLines a b c oc sq
          ++ [OutLine.remaining ((LENGTH : Int) - (tupleLines a b c oc sq).length),
              OutLine.blank] ∧
      (tupleLines a b c oc sq).length = 100 ∧
      (tupleLines a b c oc sq).length ≤ 100 := by
  refine ⟨?_, by simp [tupleLines], by simp [tupleLines]⟩
  simp [stdout_run, tupleLines]

/-- Values already inside the 32-bit signed range are unchanged by the
wrap. -/
lemma wrap32_id (x : Int) (h1 : -2147483648 ≤ x) (h2 : x < 2147483648) :
    wrap32 x = x := by
  unfold wrap32
  rw [Int.emod_eq_of_lt (by omega) (by omega)]
  omega

/-- C9: every generated element `(rand() % 9) + 1` lies in `1..9`, so the
surface-area formula is at most `486` on generated inputs, and its 32-bit
`int` evaluation (the body shared by the kernel and the sequential loop)
coincides with exact integer arithmetic — no overflow occurs. -/
theorem generated_inputs_no_overflow (ra rb rc : Nat) :
    (1 ≤ genValue ra ∧ genValue ra ≤ 9) ∧
      cuboidAreaExact (genValue ra) (genValue rb) (genValue rc) ≤ 486 ∧
      seq_cuboid_area (fun _ => genValue ra) (fun _ => genValue rb)
          (fun _ => genValue rc) 0 =
        cuboidAreaExact (genValue ra) (genValue rb) (genValue rc) := by
  have bound : ∀ r : Nat, 1 ≤ genValue r ∧ genValue r ≤ 9 := by
    intro r
    have h9 : r % 9 < 9 := Nat.mod_lt _ (by omega)
    unfold genValue
    omega
  obtain ⟨ha1, ha9⟩ := bound ra
  obtain ⟨hb1, hb9⟩ := bound rb
  obtain ⟨hc1, hc9⟩ := bound rc
  set a := genValue ra with hadef
  set b := genValue rb with hbdef
  set c := genValue rc with hcdef
  have hab1 : 1 ≤ a * b := one_le_mul_of_one_le_of_one_le ha1 hb1
  have hab9 : a * b ≤ 81 := by nlinarith
  have hbc1 : 1 ≤ b * c := one_le_mul_of_one_le_of_one_le hb1 hc1
  have hbc9 : b * c ≤ 81 := by nlinarith
  have hac1 : 1 ≤ a * c := one_le_mul_of_one_le_of_one_le ha1 hc1
  have hac9 : a * c ≤ 81 := by nlinarith
  refine ⟨⟨ha1, ha9⟩, ?_, ?_⟩
  · unfold cuboidAreaExact
    linarith
  · show mul32 2 (add32 (add32 (mul32 a b) (mul32 b c)) (mul32 a c)) =
      cuboidAreaExact a b c
    unfold cuboidAreaExact mul32 add32
    rw [wrap32_id (a * b) (by linarith) (by linarith),
        wrap32_id (b * c) (by linarith) (by linarith),
        wrap32_id (a * c) (by linarith) (by linarith),
        wrap32_id (a * b + b * c) (by linarith) (by linarith),
        wrap32_id (a * b + b * c + a * c) (by linarith) (by linarith),
        wrap32_id (2 * (a * b + b * c + a * c)) (by linarith) (by linarith)]

/-- C10: the run never calls `srand` (no seeding event occurs in
`main_trace`), so whatever seed a run might otherwise have chosen, the `rand`
stream is the default-seeded one, and two executions generate identical input
arrays `a`, `b`, `c` — and hence identical sequential results. `rng s k` is
the `k`-th value of the C library generator seeded with `s`. -/
theorem unseeded_inputs_deterministic (rng : Nat → Nat → Nat) (s1 s2 : Nat) :
    run_inputs (rng (runSeed main_trace s1)) LENGTH =
        run_inputs (rng (runSeed main_trace s2)) LENGTH ∧
      sequential_run (fun i => genValue (rng (runSeed main_trace s1) (3 * i)))
          (fun i => genValue (rng (runSeed main_trace s1) (3 * i + 1)))
          (fun i => genValue (rng (runSeed main_trace s1) (3 * i + 2))) LENGTH =
        sequential_run (fun i => genValue (rng (runSeed main_trace s2) (3 * i)))
          (fun i => genValue (rng (runSeed main_trace s2) (3 * i + 1)))
          (fun i => genValue (rng (runSeed main_trace s2) (3 * i + 2))) LENGTH := by
  have h : main_trace.contains Ev.srandCall = false := by decide
  constructor <;> simp [runSeed, h]

end Cuboid
